import Mathlib

/-!
Verification of the FoodSave food-waste tracker (food-item lifecycle,
donation state machine, achievement evaluator, aggregate statistics).

Dates are modelled as calendar-day numbers (`Int`): the Python code only
ever compares dates through the calendar-day difference
`(expiry_date_only - today).days`, which is the integer difference of the
two day numbers.  Statistical floats are modelled as exact rationals (`ℚ`)
with explicit decimal rounding where the source rounds.
-/

namespace FoodSave

/-- The six food-item statuses (strings in `src/app/models/food_item.py`). -/
inductive FoodStatus where
  | fresh
  | expiring_soon
  | expired
  | consumed
  | wasted
  | donated
deriving DecidableEq, Repr

/-- A food item, with the fields the lifecycle logic reads
(`src/app/models/food_item.py`).  `expiry_date` is a calendar-day number. -/
structure FoodItem where
  expiry_date : Int
  current_status : FoodStatus
  user_id : Nat
deriving DecidableEq, Repr

/-- Model of `FoodItem.days_until_expiry` (food_item.py lines 25-34): the
calendar-day difference between the expiry date and today. -/
def FoodItem.days_until_expiry (it : FoodItem) (today : Int) : Int :=
  it.expiry_date - today

/-- Model of `FoodItem.update_status` (food_item.py lines 36-44): recomputes
the stored status from `days_until_expiry`.  The source method writes
`self.current_status` unconditionally — it never inspects the previous
status. -/
def FoodItem.update_status (it : FoodItem) (today : Int) : FoodItem :=
  let days_left := it.days_until_expiry today
  if days_left < 0 then { it with current_status := .expired }
  else if days_left ≤ 3 then { it with current_status := .expiring_soon }
  else { it with current_status := .fresh }

/-- The status-refresh loop of the inventory page
(`dashboard` in src/app/routes/food.py lines 25-29):
`for item in food_items: item.update_status()`. -/
def dashboard_refresh (items : List FoodItem) (today : Int) : List FoodItem :=
  items.map (fun it => it.update_status today)

/-- The four donation statuses (strings in `src/app/models/donation.py`). -/
inductive DonationStatus where
  | available
  | claimed
  | completed
  | cancelled
deriving DecidableEq, Repr

/-- A donation record (`src/app/models/donation.py`).  `delivered_at` is the
mapped column of that name; `completed_at` models the plain Python attribute
that `complete_donation` assigns (it is not a mapped column, so it never
reaches the `delivered_at` column). -/
structure Donation where
  donor_id : Nat
  claimant_id : Option Nat
  status : DonationStatus
  claimed_at : Option Int
  delivered_at : Option Int
  completed_at : Option Int
deriving DecidableEq, Repr

/-- Model of `create_donation` (src/app/routes/donations.py lines 49-104),
POST branch.  `item` is the result of `FoodItem.query.get(food_item_id)`.
The handler only checks that the looked-up item exists; it performs no
ownership check and no status check before creating the donation and marking
the item `donated`.  `none` models the failure path (flash + re-render,
nothing written). -/
def create_donation (caller : Nat) (item : Option FoodItem) :
    Option (Donation × FoodItem) :=
  match item with
  | none => none
  | some it =>
      some ({ donor_id := caller, claimant_id := none, status := .available,
              claimed_at := none, delivered_at := none, completed_at := none },
            { it with current_status := .donated })

/-- Model of `claim_donation` (donations.py lines 106-138): fails if the
status is not `available`, then fails if the caller is the donor; otherwise
sets status `claimed`, the claimant, and the claimed timestamp.  `none`
models the failure path (flash + redirect, nothing written). -/
def claim_donation (d : Donation) (caller : Nat) (now : Int) : Option Donation :=
  if d.status ≠ .available then none
  else if d.donor_id = caller then none
  else some { d with status := .claimed, claimant_id := some caller,
                     claimed_at := some now }

/-- Model of `complete_donation` (donations.py lines 206-226): fails only
when the caller is not the donor; there is no check on the current status.
On success it sets status `completed` and assigns `donation.completed_at` —
the unmapped attribute — leaving the `delivered_at` column untouched. -/
def complete_donation (d : Donation) (caller : Nat) (now : Int) : Option Donation :=
  if d.donor_id ≠ caller then none
  else some { d with status := .completed, completed_at := some now }

/-- Model of `cancel_donation` (donations.py lines 228-259): fails when the
caller is not the donor, then when the status is neither `available` nor
`claimed`.  On success it sets status `cancelled`, clears claimant and
claimed timestamp, and sets the underlying food item's status to the literal
`fresh`. -/
def cancel_donation (d : Donation) (it : FoodItem) (caller : Nat) :
    Option (Donation × FoodItem) :=
  if d.donor_id ≠ caller then none
  else if d.status ≠ .available ∧ d.status ≠ .claimed then none
  else some ({ d with status := .cancelled, claimant_id := none, claimed_at := none },
             { it with current_status := .fresh })

/-- One request against a donation and its food item: a claim, complete, or
cancel by some caller. -/
inductive DonationAction where
  | claimBy (caller : Nat) (now : Int)
  | completeBy (caller : Nat) (now : Int)
  | cancelBy (caller : Nat)

/-- The state after one request: the handler's result when it succeeds, the
unchanged state when it fails. -/
def DonationAction.apply : DonationAction → Donation × FoodItem → Donation × FoodItem
  | .claimBy c t, (d, it) =>
      match claim_donation d c t with
      | some d2 => (d2, it)
      | none => (d, it)
  | .completeBy c t, (d, it) =>
      match complete_donation d c t with
      | some d2 => (d2, it)
      | none => (d, it)
  | .cancelBy c, (d, it) =>
      match cancel_donation d it c with
      | some p => p
      | none => (d, it)

/-- One entry of the `ACHIEVEMENTS` rule table
(`src/app/models/achievement.py`). -/
structure AchievementDef where
  name : String
  description : String
  type : String
  target : Nat
deriving DecidableEq, Repr

/-- The `ACHIEVEMENTS` dict of achievement.py, in its iteration order. -/
def ACHIEVEMENTS : List AchievementDef :=
  [ { name := "First Donation", description := "Made your first food donation",
      type := "donation", target := 1 },
    { name := "Waste Warrior", description := "Prevented 10+ items from going to waste",
      type := "waste_prevention", target := 10 },
    { name := "Community Hero", description := "Donated 25+ meals to the community",
      type := "community", target := 25 },
    { name := "Fresh Keeper", description := "Consumed 50+ items before expiry",
      type := "consumption", target := 50 } ]

/-- A stored Achievement row (`src/app/models/achievement.py`), with the
fields `check_achievements` reads and writes. -/
structure Achievement where
  user_id : Nat
  type : String
  name : String
  description : String
  progress : Nat
  target_value : Nat
deriving DecidableEq, Repr

/-- The `Achievement.query.filter_by(user_id=..., name=...).first()` lookup of
achievement.py, as a Boolean existence check over the stored rows. -/
def achievementExists (db : List Achievement) (uid : Nat) (nm : String) : Bool :=
  db.any fun a => a.user_id == uid && a.name == nm

/-- The row inserted by `check_achievements` for a matching definition. -/
def mkAchievement (uid : Nat) (ad : AchievementDef) : Achievement :=
  { user_id := uid, type := ad.type, name := ad.name,
    description := ad.description, progress := 100, target_value := ad.target }

/-- One iteration of the `for achievement_key, achievement_data in
ACHIEVEMENTS.items()` loop of `check_achievements` (achievement.py lines
60-87): if the definition matches the event type, no row with that name
exists for the user, and the running count reaches the target, insert the
row (into the session, hence visible to later lookups) and append it to the
earned list. -/
def checkStep (uid : Nat) (achievement_type : String) (current_count : Nat)
    (acc : List Achievement × List Achievement) (ad : AchievementDef) :
    List Achievement × List Achievement :=
  if ad.type = achievement_type then
    if achievementExists acc.1 uid ad.name = false ∧ ad.target ≤ current_count then
      (acc.1 ++ [mkAchievement uid ad], acc.2 ++ [mkAchievement uid ad])
    else acc
  else acc

/-- Model of `check_achievements(user, achievement_type, current_count)` of
achievement.py: folds the loop body over the rule table, starting from the
stored rows and an empty earned list, and returns (stored rows after commit,
earned achievements). -/
def check_achievements (db : List Achievement) (uid : Nat)
    (achievement_type : String) (current_count : Nat) :
    List Achievement × List Achievement :=
  ACHIEVEMENTS.foldl (checkStep uid achievement_type current_count) (db, [])

/-- The number of rows for a given user and achievement name. -/
def countMatching (db : List Achievement) (uid : Nat) (nm : String) : Nat :=
  db.countP fun a => a.user_id == uid && a.name == nm

/-- Python `round(x, 1)`, on exact rationals: round to the nearest tenth. -/
def round1 (x : ℚ) : ℚ := ((round (x * 10) : ℤ) : ℚ) / 10

/-- Python `round(x, 2)`, on exact rationals: round to the nearest
hundredth. -/
def round2 (x : ℚ) : ℚ := ((round (x * 100) : ℤ) : ℚ) / 100

/-- The waste percentage of `get_user_stats` (src/app/routes/main.py lines
33-81): `round((wasted_count / total_items) * 100, 1)` when there are items,
`0` otherwise. -/
def waste_percentage (wasted_count total_items : Nat) : ℚ :=
  if 0 < total_items then
    round1 ((wasted_count : ℚ) / (total_items : ℚ) * 100)
  else 0

/-- The waste percentage of `FoodWasteCalculator.calculate_waste_stats`
(src/app/utils/food_calculations.py lines 16-62): `(wasted / total) * 100`
rounded to two decimals when there are items, `0` otherwise. -/
def calc_waste_percentage (wasted total_items : Nat) : ℚ :=
  if 0 < total_items then
    round2 ((wasted : ℚ) / (total_items : ℚ) * 100)
  else 0

/-- Model of `calculate_environmental_impact` (src/app/routes/main.py lines
83-101): from the wasted-item count, CO₂ = `round(n * 2.5, 1)` kg, water =
`n * 1000` liters, meals = `n * 3`.  Returned as (co2, water, meals). -/
def calculate_environmental_impact (wasted_count : Nat) : ℚ × ℚ × ℚ :=
  (round1 ((wasted_count : ℚ) * (5 / 2)),
   (wasted_count : ℚ) * 1000,
   (wasted_count : ℚ) * 3)

/-- Model of `FoodWasteCalculator.estimate_environmental_impact`
(src/app/utils/food_calculations.py lines 106-133): converts the count to
`total_kg = n * 0.5`, then CO₂ = `round(total_kg * 2.5, 2)`, water =
`round(total_kg * 1000, 2)`, meals = `int(total_kg * 3)` (truncation — equal
to the floor here since the value is never negative).  Returned as
(co2_saved_kg, water_saved_liters, meals_saved); the extra landfill and
food-weight fields play no part in the claim. -/
def estimate_environmental_impact (wasted_items : Nat) : ℚ × ℚ × ℚ :=
  ((round2 ((wasted_items : ℚ) * (1 / 2) * (5 / 2))),
   (round2 ((wasted_items : ℚ) * (1 / 2) * 1000)),
   ((Int.floor ((wasted_items : ℚ) * (1 / 2) * 3) : ℤ) : ℚ))

/-- The status written by `update_status`, as a case split on the day
difference. -/
theorem update_status_current_status (it : FoodItem) (today : Int) :
    (it.update_status today).current_status =
      if it.expiry_date - today < 0 then .expired
      else if it.expiry_date - today ≤ 3 then .expiring_soon
      else .fresh := by
  simp only [FoodItem.update_status, FoodItem.days_until_expiry]
  split
  · rfl
  · split <;> rfl

/-- Frame property: `update_status` only changes the `current_status`
field. -/
theorem update_status_fields (it : FoodItem) (today : Int) :
    (it.update_status today).expiry_date = it.expiry_date ∧
    (it.update_status today).user_id = it.user_id := by
  simp only [FoodItem.update_status, FoodItem.days_until_expiry]
  split
  · exact ⟨rfl, rfl⟩
  · split <;> exact ⟨rfl, rfl⟩

/-- C4: for every expiry date d and current date t the classifier computes
`days_left = d - t` and yields `expired` iff d < t, `expiring_soon` iff
t ≤ d ≤ t + 3, and `fresh` iff d > t + 3. -/
theorem C4_classifier_thresholds (it : FoodItem) (today : Int) :
    it.days_until_expiry today = it.expiry_date - today ∧
    ((it.update_status today).current_status = .expired ↔ it.expiry_date < today) ∧
    ((it.update_status today).current_status = .expiring_soon ↔
      today ≤ it.expiry_date ∧ it.expiry_date ≤ today + 3) ∧
    ((it.update_status today).current_status = .fresh ↔ today + 3 < it.expiry_date) := by
  rw [FoodItem.days_until_expiry, update_status_current_status]
  refine ⟨rfl, ?_, ?_, ?_⟩ <;> split <;> (try split) <;> simp_all <;> omega

/-- Witness for C4 at a concrete input: an item expiring in two days is
classified `expiring_soon`. -/
theorem C4_classifier_thresholds_witness :
    (FoodItem.update_status
        { expiry_date := 2, current_status := .fresh, user_id := 1 } 0).current_status
      = .expiring_soon :=
  (C4_classifier_thresholds
      { expiry_date := 2, current_status := .fresh, user_id := 1 } 0).2.2.1.mpr
    (by norm_num)

/-- C1: the claim says `update_status` leaves a terminal status (consumed,
wasted, donated) unchanged.  The source never checks the stored status: on a
consumed, wasted, or donated item whose expiry date lies ahead, it overwrites
the terminal status with `fresh`, and the inventory page's refresh loop does
the same to every displayed item. -/
theorem C1_update_status_overwrites_terminal :
    (FoodItem.update_status
        { expiry_date := 10, current_status := .consumed, user_id := 1 } 0).current_status
      = .fresh ∧
    (FoodItem.update_status
        { expiry_date := 10, current_status := .wasted, user_id := 1 } 0).current_status
      = .fresh ∧
    (FoodItem.update_status
        { expiry_date := 10, current_status := .donated, user_id := 1 } 0).current_status
      = .fresh ∧
    dashboard_refresh
        [{ expiry_date := 10, current_status := .consumed, user_id := 1 }] 0
      = [{ expiry_date := 10, current_status := .fresh, user_id := 1 }] := by
  refine ⟨rfl, rfl, rfl, rfl⟩

/-- C2 counterexample: a `cancelled` donation is not terminal.
`complete_donation` checks only that the caller is the donor — there is no
status guard — so the donor of a cancelled donation moves it to `completed`. -/
theorem C2_cancelled_becomes_completed :
    (DonationAction.apply (.completeBy 1 9)
        ({ donor_id := 1, claimant_id := none, status := .cancelled,
           claimed_at := none, delivered_at := none, completed_at := none },
         { expiry_date := 10, current_status := .donated, user_id := 1 })).1.status
      = .completed := rfl

/-- C2 (amended): `completed` is terminal — no claim, complete, or cancel
request changes it.  `cancelled` is terminal under claim and cancel, but a
complete request by the donor moves it to `completed`; that is the only way a
cancelled donation's status ever changes. -/
theorem C2_completed_terminal_cancelled_not (d : Donation) (it : FoodItem)
    (a : DonationAction) :
    (d.status = .completed → (a.apply (d, it)).1.status = .completed) ∧
    (d.status = .cancelled →
      (a.apply (d, it)).1.status = .cancelled ∨
      ((a.apply (d, it)).1.status = .completed ∧
        ∃ t, a = .completeBy d.donor_id t)) := by
  refine ⟨fun h => ?_, fun h => ?_⟩
  · cases a with
    | claimBy c t =>
        simp [DonationAction.apply, claim_donation, h]
    | completeBy c t =>
        by_cases hc : d.donor_id = c <;>
          simp [DonationAction.apply, complete_donation, hc, h]
    | cancelBy c =>
        by_cases hc : d.donor_id = c <;>
          simp [DonationAction.apply, cancel_donation, hc, h]
  · cases a with
    | claimBy c t =>
        left
        simp [DonationAction.apply, claim_donation, h]
    | completeBy c t =>
        by_cases hc : d.donor_id = c
        · right
          refine ⟨?_, t, ?_⟩
          · simp [DonationAction.apply, complete_donation, hc]
          · rw [hc]
        · left
          simp [DonationAction.apply, complete_donation, hc, h]
    | cancelBy c =>
        left
        by_cases hc : d.donor_id = c <;>
          simp [DonationAction.apply, cancel_donation, hc, h]

/-- Witness for the amended C2 theorem at concrete states: a completed
donation survives a claim attempt, and a cancelled one survives a claim
attempt. -/
theorem C2_completed_terminal_cancelled_not_witness :
    (DonationAction.apply (.claimBy 2 0)
        ({ donor_id := 1, claimant_id := none, status := .completed,
           claimed_at := none, delivered_at := none, completed_at := none },
         { expiry_date := 10, current_status := .donated, user_id := 1 })).1.status
      = .completed ∧
    ((DonationAction.apply (.claimBy 2 0)
        ({ donor_id := 1, claimant_id := none, status := .cancelled,
           claimed_at := none, delivered_at := none, completed_at := none },
         { expiry_date := 10, current_status := .donated, user_id := 1 })).1.status
      = .cancelled ∨
      ((DonationAction.apply (.claimBy 2 0)
        ({ donor_id := 1, claimant_id := none, status := .cancelled,
           claimed_at := none, delivered_at := none, completed_at := none },
         { expiry_date := 10, current_status := .donated, user_id := 1 })).1.status
      = .completed ∧ ∃ t, DonationAction.claimBy 2 0 = .completeBy 1 t)) :=
  ⟨(C2_completed_terminal_cancelled_not _ _ _).1 rfl,
   (C2_completed_terminal_cancelled_not _ _ _).2 rfl⟩

/-- C3: the claim says a donation is created only for an existing food item
that the caller owns with status fresh or expiring_soon.  The POST handler
checks existence only: here caller 1 donates an item owned by user 2 whose
status is `expired`, and the handler still creates an available donation with
caller 1 as donor and marks the foreign expired item `donated`. -/
theorem C3_create_donation_skips_ownership_and_status_checks :
    create_donation 1 (some { expiry_date := -5, current_status := .expired, user_id := 2 })
      = some ({ donor_id := 1, claimant_id := none, status := .available,
                claimed_at := none, delivered_at := none, completed_at := none },
              { expiry_date := -5, current_status := .donated, user_id := 2 }) ∧
    create_donation 1 none = none := ⟨rfl, rfl⟩

/-- C5 counterexample: cancelling does not reset the food item via the
classifier.  The donor cancels an available donation whose item expired ten
days ago: the handler stores `fresh`, while the date-based classifier yields
`expired` for that expiry date. -/
theorem C5_cancel_sets_fresh_not_classifier :
    cancel_donation
        { donor_id := 1, claimant_id := none, status := .available,
          claimed_at := none, delivered_at := none, completed_at := none }
        { expiry_date := -10, current_status := .donated, user_id := 1 } 1
      = some ({ donor_id := 1, claimant_id := none, status := .cancelled,
                claimed_at := none, delivered_at := none, completed_at := none },
              { expiry_date := -10, current_status := .fresh, user_id := 1 }) ∧
    (FoodItem.update_status
        { expiry_date := -10, current_status := .donated, user_id := 1 } 0).current_status
      = .expired ∧
    FoodStatus.fresh ≠ FoodStatus.expired := ⟨rfl, rfl, by decide⟩

/-- C5 (amended): cancel succeeds exactly for the donor on a donation in
{available, claimed}; on success it sets status `cancelled`, clears the
claimant and claimed timestamp, and sets the underlying food item's status
unconditionally to the hardcoded `fresh` (not via the classifier); any other
caller or status fails and changes nothing. -/
theorem C5_cancel_behaviour (d : Donation) (it : FoodItem) (caller : Nat) :
    ((cancel_donation d it caller).isSome ↔
      d.donor_id = caller ∧ (d.status = .available ∨ d.status = .claimed)) ∧
    (∀ p, cancel_donation d it caller = some p →
      p.1 = { d with status := .cancelled, claimant_id := none, claimed_at := none } ∧
      p.2 = { it with current_status := .fresh }) := by
  unfold cancel_donation
  constructor
  · split
    · simp_all
    · split <;> simp_all
      tauto
  · intro p hp
    split at hp
    · exact absurd hp (by simp)
    · split at hp
      · exact absurd hp (by simp)
      · rw [← Option.some.inj hp]
        exact ⟨rfl, rfl⟩

/-- Witness for the amended C5 theorem: a donor cancelling an available
donation succeeds, and the resulting pair is exactly the cancelled record
with the item forced to `fresh`. -/
theorem C5_cancel_behaviour_witness :
    ((cancel_donation
        { donor_id := 1, claimant_id := none, status := .available,
          claimed_at := none, delivered_at := none, completed_at := none }
        { expiry_date := 4, current_status := .donated, user_id := 1 } 1).isSome ↔
      (1 : Nat) = 1 ∧ (DonationStatus.available = .available ∨
        DonationStatus.available = .claimed)) ∧
    ({ donor_id := 1, claimant_id := none, status := .cancelled,
       claimed_at := none, delivered_at := none, completed_at := none : Donation }
      = { donor_id := 1, claimant_id := none, status := .cancelled,
          claimed_at := none, delivered_at := none, completed_at := none } ∧
     { expiry_date := 4, current_status := .fresh, user_id := 1 : FoodItem }
      = { expiry_date := 4, current_status := .fresh, user_id := 1 }) :=
  ⟨(C5_cancel_behaviour _ _ 1).1,
   (C5_cancel_behaviour
      { donor_id := 1, claimant_id := none, status := .available,
        claimed_at := none, delivered_at := none, completed_at := none }
      { expiry_date := 4, current_status := .donated, user_id := 1 } 1).2
     ({ donor_id := 1, claimant_id := none, status := .cancelled,
        claimed_at := none, delivered_at := none, completed_at := none },
      { expiry_date := 4, current_status := .fresh, user_id := 1 }) rfl⟩

/-- C6: the claim says complete() records the completion timestamp in the
stored delivered-at field.  The handler assigns `donation.completed_at`,
which is not a mapped column of the model — the `delivered_at` column it
declares stays unset.  Here the donor completes a claimed donation: the
status becomes `completed` but `delivered_at` is still `none`; a non-donor
attempt fails. -/
theorem C6_complete_leaves_delivered_at_unset :
    complete_donation
        { donor_id := 1, claimant_id := some 2, status := .claimed,
          claimed_at := some 5, delivered_at := none, completed_at := none } 1 9
      = some { donor_id := 1, claimant_id := some 2, status := .completed,
               claimed_at := some 5, delivered_at := none, completed_at := some 9 } ∧
    complete_donation
        { donor_id := 1, claimant_id := some 2, status := .claimed,
          claimed_at := some 5, delivered_at := none, completed_at := none } 3 9
      = none := ⟨rfl, rfl⟩

/-- C7: claim() fails exactly when the donation's status is not `available`
or the caller is the donor, leaving the donation unchanged; on success it
sets the claimant to the caller, the claimed timestamp, and status
`claimed`. -/
theorem C7_claim_donation_spec (d : Donation) (caller : Nat) (now : Int) :
    (claim_donation d caller now = none ↔
      (d.status ≠ .available ∨ d.donor_id = caller)) ∧
    (∀ d2, claim_donation d caller now = some d2 →
      d2 = { d with status := .claimed, claimant_id := some caller,
                    claimed_at := some now }) := by
  unfold claim_donation
  constructor
  · split
    · simp_all
    · split <;> simp_all
  · intro d2 h
    split at h
    · exact absurd h (by simp)
    · split at h
      · exact absurd h (by simp)
      · exact (Option.some.inj h).symm

/-- Witness for C7: claiming one's own donation fails; a successful claim by
user 2 produces exactly the claimed record. -/
theorem C7_claim_donation_spec_witness :
    (claim_donation
        { donor_id := 1, claimant_id := none, status := .available,
          claimed_at := none, delivered_at := none, completed_at := none } 1 7
      = none) ∧
    ({ donor_id := 1, claimant_id := some 2, status := .claimed,
       claimed_at := some 7, delivered_at := none, completed_at := none : Donation }
      = { donor_id := 1, claimant_id := some 2, status := .claimed,
          claimed_at := some 7, delivered_at := none, completed_at := none }) :=
  ⟨(C7_claim_donation_spec
      { donor_id := 1, claimant_id := none, status := .available,
        claimed_at := none, delivered_at := none, completed_at := none } 1 7).1.mpr
      (Or.inr rfl),
   (C7_claim_donation_spec
      { donor_id := 1, claimant_id := none, status := .available,
        claimed_at := none, delivered_at := none, completed_at := none } 2 7).2
      { donor_id := 1, claimant_id := some 2, status := .claimed,
        claimed_at := some 7, delivered_at := none, completed_at := none } rfl⟩

/-- Rows are never removed by the evaluator loop. -/
theorem mem_foldl_checkStep (uid : Nat) (ty : String) (cnt : Nat)
    (defs : List AchievementDef) (acc : List Achievement × List Achievement)
    (a : Achievement) (ha : a ∈ acc.1) :
    a ∈ (defs.foldl (checkStep uid ty cnt) acc).1 := by
  induction defs generalizing acc with
  | nil => exact ha
  | cons d ds ih =>
      rw [List.foldl_cons]
      apply ih
      unfold checkStep
      split
      · split
        · exact List.mem_append_left _ ha
        · exact ha
      · exact ha

/-- An existence check that succeeds keeps succeeding after the loop. -/
theorem achievementExists_foldl_mono (uid : Nat) (ty : String) (cnt : Nat)
    (defs : List AchievementDef) (acc : List Achievement × List Achievement)
    (nm : String) (h : achievementExists acc.1 uid nm = true) :
    achievementExists (defs.foldl (checkStep uid ty cnt) acc).1 uid nm = true := by
  rw [achievementExists, List.any_eq_true] at h ⊢
  obtain ⟨a, ha, hp⟩ := h
  exact ⟨a, mem_foldl_checkStep uid ty cnt defs acc a ha, hp⟩

/-- After the loop, every definition of the processed list that matches the
event type and whose target is reached has a row for the user. -/
theorem foldl_checkStep_covers (uid : Nat) (ty : String) (cnt : Nat)
    (defs : List AchievementDef) (acc : List Achievement × List Achievement)
    (ad : AchievementDef) (had : ad ∈ defs) (hty : ad.type = ty)
    (htar : ad.target ≤ cnt) :
    achievementExists (defs.foldl (checkStep uid ty cnt) acc).1 uid ad.name = true := by
  induction defs generalizing acc with
  | nil => cases had
  | cons d ds ih =>
      rw [List.foldl_cons]
      rcases List.mem_cons.mp had with h | h
      · subst h
        apply achievementExists_foldl_mono
        unfold checkStep
        rw [if_pos hty]
        split
        · rw [achievementExists, List.any_eq_true]
          refine ⟨mkAchievement uid ad, List.mem_append_right _ ?_, ?_⟩
          · exact List.mem_singleton.mpr rfl
          · simp [mkAchievement]
        · rename_i hcond
          have hne : ¬ achievementExists acc.1 uid ad.name = false :=
            fun hA => hcond ⟨hA, htar⟩
          simpa using hne
      · exact ih _ h

/-- If every matching, reached definition already has a row in `db`, the
whole loop is a no-op and earns nothing. -/
theorem foldl_checkStep_noop (uid : Nat) (ty : String) (cnt : Nat)
    (defs : List AchievementDef) (db : List Achievement)
    (h : ∀ ad ∈ defs, ad.type = ty → ad.target ≤ cnt →
      achievementExists db uid ad.name = true) :
    defs.foldl (checkStep uid ty cnt) (db, []) = (db, []) := by
  induction defs with
  | nil => rfl
  | cons d ds ih =>
      have hstep : checkStep uid ty cnt (db, []) d = (db, []) := by
        unfold checkStep
        split
        · split
          · rename_i hty hcond
            exact absurd (h d (List.mem_cons_self d ds) hty hcond.2)
              (by simp [hcond.1])
          · rfl
        · rfl
      rw [List.foldl_cons, hstep]
      exact ih fun ad ha => h ad (List.mem_cons_of_mem d ha)

/-- Loop iterations for definitions with other names do not change the row
count for `nm`. -/
theorem countMatching_foldl_of_ne (uid : Nat) (ty : String) (cnt : Nat)
    (defs : List AchievementDef) (acc : List Achievement × List Achievement)
    (nm : String) (h : ∀ ad ∈ defs, ad.name ≠ nm) :
    countMatching (defs.foldl (checkStep uid ty cnt) acc).1 uid nm =
      countMatching acc.1 uid nm := by
  induction defs generalizing acc with
  | nil => rfl
  | cons d ds ih =>
      rw [List.foldl_cons,
        ih (checkStep uid ty cnt acc d) fun ad ha => h ad (List.mem_cons_of_mem d ha)]
      unfold checkStep
      split
      · split
        · rw [countMatching, List.countP_append]
          have hne : d.name ≠ nm := h d (List.mem_cons_self d ds)
          simp [countMatching, mkAchievement, hne]
        · rfl
      · rfl

/-- Loop iterations for definitions with other names keep the existence
check for `nm` failing. -/
theorem achievementExists_foldl_of_ne (uid : Nat) (ty : String) (cnt : Nat)
    (defs : List AchievementDef) (acc : List Achievement × List Achievement)
    (nm : String) (h : ∀ ad ∈ defs, ad.name ≠ nm)
    (hex : achievementExists acc.1 uid nm = false) :
    achievementExists (defs.foldl (checkStep uid ty cnt) acc).1 uid nm = false := by
  induction defs generalizing acc with
  | nil => exact hex
  | cons d ds ih =>
      rw [List.foldl_cons]
      refine ih (checkStep uid ty cnt acc d)
        (fun ad ha => h ad (List.mem_cons_of_mem d ha)) ?_
      unfold checkStep
      split
      · split
        · have hne : d.name ≠ nm := h d (List.mem_cons_self d ds)
          rw [achievementExists, List.any_append, Bool.or_eq_false_iff]
          exact ⟨hex, by simp [mkAchievement, hne]⟩
        · exact hex
      · exact hex

/-- If `ad` appears in a list of definitions with pairwise-distinct names,
matches the event type, has its target reached, and has no row yet, then the
loop adds exactly one row for it. -/
theorem countMatching_foldl_insert (uid : Nat) (ty : String) (cnt : Nat)
    (defs : List AchievementDef) (acc : List Achievement × List Achievement)
    (ad : AchievementDef) (had : ad ∈ defs)
    (hnodup : (defs.map (fun d => d.name)).Nodup)
    (hty : ad.type = ty) (htar : ad.target ≤ cnt)
    (hex : achievementExists acc.1 uid ad.name = false) :
    countMatching (defs.foldl (checkStep uid ty cnt) acc).1 uid ad.name =
      countMatching acc.1 uid ad.name + 1 := by
  induction defs generalizing acc with
  | nil => cases had
  | cons d ds ih =>
      rw [List.map_cons, List.nodup_cons] at hnodup
      rw [List.foldl_cons]
      rcases List.mem_cons.mp had with h | h
      · subst h
        have havoid : ∀ b ∈ ds, b.name ≠ ad.name := by
          intro b hb hbn
          exact hnodup.1 (hbn ▸ List.mem_map_of_mem (fun x => x.name) hb)
        rw [countMatching_foldl_of_ne uid ty cnt ds _ ad.name havoid]
        unfold checkStep
        rw [if_pos hty, if_pos ⟨hex, htar⟩]
        rw [countMatching, countMatching, List.countP_append]
        simp [mkAchievement]
      · have hdn : d.name ≠ ad.name := by
          intro hbn
          exact hnodup.1 (hbn ▸ List.mem_map_of_mem (fun x => x.name) h)
        have hstep : countMatching (checkStep uid ty cnt acc d).1 uid ad.name =
            countMatching acc.1 uid ad.name := by
          unfold checkStep
          split
          · split
            · rw [countMatching, List.countP_append]
              simp [countMatching, mkAchievement, hdn]
            · rfl
          · rfl
        have hexstep : achievementExists (checkStep uid ty cnt acc d).1 uid ad.name
            = false := by
          unfold checkStep
          split
          · split
            · rw [achievementExists, List.any_append, Bool.or_eq_false_iff]
              exact ⟨hex, by simp [mkAchievement, hdn]⟩
            · exact hex
          · exact hex
        rw [ih _ h hnodup.2 hexstep, hstep]

/-- The four rule-table names are pairwise distinct. -/
theorem ACHIEVEMENTS_names_nodup :
    (ACHIEVEMENTS.map (fun d => d.name)).Nodup := by decide

/-- C8: the achievement evaluator is idempotent.  Running it a second time
with identical (user, event type, count) changes nothing and earns nothing,
because the existence check is made before each insert; and a qualifying
achievement that had no row before the first run has exactly one row after
it. -/
theorem C8_check_achievements_idempotent (db : List Achievement) (uid : Nat)
    (ty : String) (cnt : Nat) :
    check_achievements (check_achievements db uid ty cnt).1 uid ty cnt =
      ((check_achievements db uid ty cnt).1, []) ∧
    (∀ ad ∈ ACHIEVEMENTS, ad.type = ty → ad.target ≤ cnt →
      achievementExists db uid ad.name = false →
      countMatching (check_achievements db uid ty cnt).1 uid ad.name = 1) := by
  constructor
  · apply foldl_checkStep_noop
    intro ad ha hty htar
    exact foldl_checkStep_covers uid ty cnt ACHIEVEMENTS (db, []) ad ha hty htar
  · intro ad ha hty htar hex
    have h0 : countMatching db uid ad.name = 0 := by
      rw [countMatching, List.countP_eq_zero]
      rw [achievementExists, List.any_eq_false] at hex
      exact hex
    rw [check_achievements,
      countMatching_foldl_insert uid ty cnt ACHIEVEMENTS (db, []) ad ha
        ACHIEVEMENTS_names_nodup hty htar hex]
    rw [h0]

/-- Witness for C8 at a concrete input: user 7 reports one donation; the
second evaluation is a no-op and the First Donation row is unique. -/
theorem C8_check_achievements_idempotent_witness :
    check_achievements (check_achievements [] 7 "donation" 1).1 7 "donation" 1 =
      ((check_achievements [] 7 "donation" 1).1, []) ∧
    countMatching (check_achievements [] 7 "donation" 1).1 7 "First Donation" = 1 :=
  ⟨(C8_check_achievements_idempotent [] 7 "donation" 1).1,
   (C8_check_achievements_idempotent [] 7 "donation" 1).2
     { name := "First Donation", description := "Made your first food donation",
       type := "donation", target := 1 }
     (List.mem_cons_self _ _) rfl (Nat.le_refl 1) rfl⟩

/-- Rounding to one decimal moves a rational by at most 1/20. -/
theorem abs_round1_sub (x : ℚ) : |round1 x - x| ≤ 1 / 20 := by
  have h := abs_sub_round (x * 10)
  rw [abs_sub_comm] at h
  rw [round1]
  have heq : ((round (x * 10) : ℤ) : ℚ) / 10 - x =
      (((round (x * 10) : ℤ) : ℚ) - x * 10) / 10 := by ring
  rw [heq, abs_div, abs_of_pos (by norm_num : (0 : ℚ) < 10)]
  linarith

/-- Rounding to two decimals moves a rational by at most 1/200. -/
theorem abs_round2_sub (x : ℚ) : |round2 x - x| ≤ 1 / 200 := by
  have h := abs_sub_round (x * 100)
  rw [abs_sub_comm] at h
  rw [round2]
  have heq : ((round (x * 100) : ℤ) : ℚ) / 100 - x =
      (((round (x * 100) : ℤ) : ℚ) - x * 100) / 100 := by ring
  rw [heq, abs_div, abs_of_pos (by norm_num : (0 : ℚ) < 100)]
  linarith

/-- C9 counterexample: with 1 wasted item out of 3 the stored percentage is
the rounded 33.3, not the exact value 100/3 the claim asserts. -/
theorem C9_waste_percentage_not_exact :
    waste_percentage 1 3 = 333 / 10 ∧ (333 / 10 : ℚ) ≠ (1 : ℚ) / 3 * 100 := by
  constructor
  · rw [waste_percentage, if_pos (by norm_num), round1,
      show ((1 : ℕ) : ℚ) / ((3 : ℕ) : ℚ) * 100 * 10 = 1000 / 3 by norm_num]
    have hr : round ((1000 : ℚ) / 3) = 333 := by
      rw [round_eq, Int.floor_eq_iff]
      constructor <;> norm_num
    rw [hr]
    norm_num
  · norm_num

/-- C9 (amended): the stored waste percentage is the exact `wasted / total ×
100` rounded to one decimal in the analytics route and to two decimals in the
calculator — hence within 1/20 resp. 1/200 of the exact ratio — equals 0 when
there are no items, and is exactly 30 for 3 wasted of 10. -/
theorem C9_waste_percentage_spec (w t : Nat) :
    waste_percentage w 0 = 0 ∧
    calc_waste_percentage w 0 = 0 ∧
    (0 < t → |waste_percentage w t - (w : ℚ) / (t : ℚ) * 100| ≤ 1 / 20) ∧
    (0 < t → |calc_waste_percentage w t - (w : ℚ) / (t : ℚ) * 100| ≤ 1 / 200) ∧
    waste_percentage 3 10 = 30 ∧
    calc_waste_percentage 3 10 = 30 := by
  refine ⟨rfl, rfl, fun ht => ?_, fun ht => ?_, ?_, ?_⟩
  · rw [waste_percentage, if_pos ht]
    exact abs_round1_sub _
  · rw [calc_waste_percentage, if_pos ht]
    exact abs_round2_sub _
  · rw [waste_percentage, if_pos (by norm_num), round1,
      show ((3 : ℕ) : ℚ) / ((10 : ℕ) : ℚ) * 100 * 10 = ((300 : ℤ) : ℚ) by norm_num,
      round_intCast]
    norm_num
  · rw [calc_waste_percentage, if_pos (by norm_num), round2,
      show ((3 : ℕ) : ℚ) / ((10 : ℕ) : ℚ) * 100 * 100 = ((3000 : ℤ) : ℚ) by norm_num,
      round_intCast]
    norm_num

/-- Witness for the amended C9 theorem at w = 3: the zero-total case and the
error bound at 3 wasted of 10 total. -/
theorem C9_waste_percentage_spec_witness :
    waste_percentage 3 0 = 0 ∧
    |waste_percentage 3 10 - (3 : ℚ) / (10 : ℚ) * 100| ≤ 1 / 20 := by
  refine ⟨(C9_waste_percentage_spec 3 0).1, ?_⟩
  have h := (C9_waste_percentage_spec 3 10).2.2.1 (by norm_num)
  simpa using h

/-- The route's CO₂ figure in closed form: the rounding is exact. -/
theorem calculate_co2_eq (n : Nat) :
    (calculate_environmental_impact n).1 = (n : ℚ) * (5 / 2) := by
  rw [calculate_environmental_impact, round1,
    show ((n : ℚ) * (5 / 2) * 10) = ((25 * n : ℤ) : ℚ) by push_cast; ring,
    round_intCast]
  push_cast
  ring

/-- The calculator's CO₂ figure in closed form: the rounding is exact. -/
theorem estimate_co2_eq (n : Nat) :
    (estimate_environmental_impact n).1 = (n : ℚ) * (5 / 4) := by
  rw [estimate_environmental_impact, round2,
    show ((n : ℚ) * (1 / 2) * (5 / 2) * 100) = ((125 * n : ℤ) : ℚ) by push_cast; ring,
    round_intCast]
  push_cast
  ring

/-- The calculator's water figure in closed form: the rounding is exact. -/
theorem estimate_water_eq (n : Nat) :
    (estimate_environmental_impact n).2.1 = (n : ℚ) * 500 := by
  show round2 ((n : ℚ) * (1 / 2) * 1000) = (n : ℚ) * 500
  rw [round2,
    show ((n : ℚ) * (1 / 2) * 1000 * 100) = ((50000 * n : ℤ) : ℚ) by push_cast; ring,
    round_intCast]
  push_cast
  ring

/-- C10 counterexample: at a single wasted item the two implementations give
(1.25 kg, 500 L, 1 meal) versus (2.5 kg, 1000 L, 3 meals). -/
theorem C10_impacts_disagree :
    estimate_environmental_impact 1 ≠ calculate_environmental_impact 1 := by
  intro h
  have h1 := congrArg Prod.fst h
  rw [estimate_co2_eq, calculate_co2_eq] at h1
  norm_num at h1

/-- C10 (amended): the two implementations agree only on a zero count.  For
every count the calculator's CO₂ and water figures are exactly half the
route's, and its meals figure is the route's halved and rounded down. -/
theorem C10_estimate_is_half_of_route (n : Nat) :
    2 * (estimate_environmental_impact n).1 = (calculate_environmental_impact n).1 ∧
    2 * (estimate_environmental_impact n).2.1 = (calculate_environmental_impact n).2.1 ∧
    ((estimate_environmental_impact n).2.2 ≤ (calculate_environmental_impact n).2.2 / 2 ∧
      (calculate_environmental_impact n).2.2 / 2 <
        (estimate_environmental_impact n).2.2 + 1) ∧
    (estimate_environmental_impact n = calculate_environmental_impact n ↔ n = 0) := by
  refine ⟨?_, ?_, ⟨?_, ?_⟩, ?_, ?_⟩
  · rw [estimate_co2_eq, calculate_co2_eq]
    ring
  · rw [estimate_water_eq]
    show 2 * ((n : ℚ) * 500) = (n : ℚ) * 1000
    ring
  · show ((Int.floor ((n : ℚ) * (1 / 2) * 3) : ℤ) : ℚ) ≤ (n : ℚ) * 3 / 2
    calc ((Int.floor ((n : ℚ) * (1 / 2) * 3) : ℤ) : ℚ)
        ≤ (n : ℚ) * (1 / 2) * 3 := Int.floor_le _
      _ = (n : ℚ) * 3 / 2 := by ring
  · show (n : ℚ) * 3 / 2 < ((Int.floor ((n : ℚ) * (1 / 2) * 3) : ℤ) : ℚ) + 1
    calc (n : ℚ) * 3 / 2 = (n : ℚ) * (1 / 2) * 3 := by ring
      _ < ((Int.floor ((n : ℚ) * (1 / 2) * 3) : ℤ) : ℚ) + 1 := Int.lt_floor_add_one _
  · intro h
    have h1 := congrArg Prod.fst h
    rw [estimate_co2_eq, calculate_co2_eq] at h1
    have : (n : ℚ) = 0 := by linarith
    exact_mod_cast this
  · intro h
    subst h
    rw [Prod.ext_iff, Prod.ext_iff]
    refine ⟨?_, ?_, ?_⟩
    · rw [estimate_co2_eq, calculate_co2_eq]
      norm_num
    · rw [estimate_water_eq]
      show ((0 : ℕ) : ℚ) * 500 = ((0 : ℕ) : ℚ) * 1000
      norm_num
    · show ((Int.floor (((0 : ℕ) : ℚ) * (1 / 2) * 3) : ℤ) : ℚ) = ((0 : ℕ) : ℚ) * 3
      norm_num

/-- Witness for the amended C10 theorem at concrete counts: the CO₂ halving
at two wasted items and the agreement at zero. -/
theorem C10_estimate_is_half_of_route_witness :
    2 * (estimate_environmental_impact 2).1 = (calculate_environmental_impact 2).1 ∧
    estimate_environmental_impact 0 = calculate_environmental_impact 0 :=
  ⟨(C10_estimate_is_half_of_route 2).1,
   (C10_estimate_is_half_of_route 0).2.2.2.mpr rfl⟩

end FoodSave
